import Mathlib

/-!
OpenCowork core: shallow embedding and verification

This file embeds the core of the OpenCowork repository — the provider
process manager (`src/core/llm-provider.js`), the provider registry
(`src/core/provider-manager.js`), the provider variants
(`src/providers/*.js`) and the task execution engine
(`src/core/task-executor.js`) — as pure Lean definitions, and proves the
testable properties of its specification against them.

Modelling conventions:
* The external world (the spawned backend process, its pipes, timers) is
  passed in explicitly: a `spawn` attempt is an `Except String Nat`
  (a granted process handle or a spawn-time failure), and one
  request/response exchange on the pipes is an `ExchangeEvent` (either
  end-of-stream with the accumulated output and error buffers, or the
  timeout firing first).
* JavaScript exceptions become `Except String` values carrying the
  error's `message`.
* Wall-clock timestamps (`startTime`/`endTime` ISO strings) are not
  modelled; no verified property mentions them.
* Mutation of `this` becomes explicit state passing: a method that
  mutates its receiver returns the updated record.
-/

namespace OpenCowork

/-- One spawned provider's state: the fields of class `LLMProvider`
(`src/core/llm-provider.js`).  `process` is the handle of the spawned
backend process (`null` when not running), abbreviated to an opaque
numeric handle. -/
structure LLMProvider where
  name : String
  cli : String
  args : List String
  model : String
  process : Option Nat
  isReady : Bool
deriving DecidableEq

/-- Embeds `new LLMProvider(config)`: `process = null`, `isReady = false`. -/
def LLMProvider.init (name cli : String) (args : List String) (model : String) : LLMProvider :=
  { name := name, cli := cli, args := args, model := model
    process := none, isReady := false }

/-- What the external process does during one `prompt` call: either the
stdout pipe ends (carrying the accumulated stdout and stderr buffers)
before the timer fires, or the timeout fires first. -/
inductive ExchangeEvent where
  | endOfStream (output : String) (errBuf : String)
  | timeout
deriving DecidableEq

/-- JavaScript `options.timeout || 30000`: `0` (falsy) also selects the
default. -/
def orDefault (t : Option Nat) (d : Nat) : Nat :=
  match t with
  | some v => if v = 0 then d else v
  | none => d

/-- Embeds `LLMProvider.prompt(task, options)` (`src/core/llm-provider.js`
lines 57–90).  Throws when there is no running, ready process; otherwise
writes `task + "\n"` to the input pipe and resolves the exchange the
environment `env` answers with: timeout rejection naming the bound,
rejection carrying the stderr buffer when it is non-empty at
end-of-stream, or the trimmed stdout buffer. -/
def LLMProvider.prompt (p : LLMProvider) (task : String) (tOpt : Option Nat)
    (env : String → ExchangeEvent) : Except String String :=
  if p.process = none ∨ p.isReady = false then
    .error ("Provider " ++ p.name ++ " is not ready")
  else
    match env (task ++ "\n") with
    | .timeout =>
        .error ("Timeout: " ++ p.name ++ " did not respond within "
          ++ toString (orDefault tOpt 30000) ++ "ms")
    | .endOfStream output errBuf =>
        if errBuf ≠ "" then .error (p.name ++ " error: " ++ errBuf)
        else .ok output.trim

/-- Embeds `LLMProvider.spawn()` (lines 22–52): throws if a process handle
already exists; otherwise the spawn attempt either fails or yields a
handle, after which `waitForReady` always resolves and the ready flag is
set. -/
def LLMProvider.spawn (p : LLMProvider) (attempt : Except String Nat) :
    Except String LLMProvider :=
  if p.process.isSome then
    .error ("Provider " ++ p.name ++ " is already running")
  else
    match attempt with
    | .error e => .error e
    | .ok h => .ok { p with process := some h, isReady := true }

/-- Embeds `LLMProvider.terminate()` (lines 104–110): if a process handle
exists, signal it and clear handle and ready flag; otherwise do
nothing. -/
def LLMProvider.terminate (p : LLMProvider) : LLMProvider :=
  if p.process.isSome then { p with process := none, isReady := false } else p

/-- The role/instruction framing `ClaudeCodeProvider.prompt` wraps
around the caller's task (`src/providers/claude-code.js` lines 40–53). -/
def claudeCodeEnhance (task : String) : String :=
  "\nAct as an agent executing this task:\n\nTASK: " ++ task
    ++ "\n\nInstructions:\n- Break down the task into steps\n- Execute each step systematically  \n- Use available tools (file operations, web search, etc.)\n- Provide clear progress updates\n- Return final results\n\nBegin execution:\n"

/-- Embeds `ClaudeCodeProvider.prompt(task, options)` (`src/providers/claude-code.js`
lines 35–56): when there is no running ready process it first calls
`spawn()` (propagating a spawn failure) and only then delegates the
enhanced task to the base-class prompt. -/
def ClaudeCodeProvider.prompt (p : LLMProvider) (task : String) (tOpt : Option Nat)
    (attempt : Except String Nat) (env : String → ExchangeEvent) :
    Except String String × LLMProvider :=
  if p.process = none ∨ p.isReady = false then
    match p.spawn attempt with
    | .error e => (.error e, p)
    | .ok p' => (p'.prompt (claudeCodeEnhance task) tOpt env, p')
  else
    (p.prompt (claudeCodeEnhance task) tOpt env, p)

/-- The framing `OllamaProvider.prompt` wraps around the caller's task
(`src/providers/ollama.js` lines 43–54). -/
def ollamaEnhance (task : String) : String :=
  "You are an autonomous agent executing tasks. Follow these steps:\n\n1. ANALYZE: Break down this task: \"" ++ task
    ++ "\"\n2. PLAN: List the specific steps needed\n3. EXECUTE: Perform each step systematically\n4. REPORT: Summarize what was accomplished\n\nFocus on practical execution. If you need file operations or system access, describe the exact commands/actions needed.\n\nTask: " ++ task
    ++ "\n\nBegin analysis and execution:"

/-- Embeds `OllamaProvider.prompt(task, options)` (`src/providers/ollama.js`
lines 37–57): auto-spawns when not ready, then delegates to the
base-class prompt with `{ ...options, timeout: 60000 }` — the caller's
timeout is always overridden with 60000. -/
def OllamaProvider.prompt (p : LLMProvider) (task : String) (tOpt : Option Nat)
    (attempt : Except String Nat) (env : String → ExchangeEvent) :
    Except String String × LLMProvider :=
  if p.process = none ∨ p.isReady = false then
    match p.spawn attempt with
    | .error e => (.error e, p)
    | .ok p' => (p'.prompt (ollamaEnhance task) (some 60000) env, p')
  else
    (p.prompt (ollamaEnhance task) (some 60000) env, p)

/-- The canned response templates of `MockProvider.initializeResponses()`
(`src/providers/mock.js` lines 74–239).  The `research` template
interpolates the current date at construction time; it is passed in as
`dateStr`. -/
structure MockResponses where
  fileOperations : String
  analysis : String
  research : String
  coding : String
  generic : String
deriving DecidableEq

/-- Embeds `MockProvider.initializeResponses()`, with the construction-time date
string (`new Date().toISOString().split('T')[0]`) supplied as `dateStr`. -/
def MockProvider.initializeResponses (dateStr : String) : MockResponses where
  fileOperations :=
    "\n## File Organization Task Completed ✅\n\n**Steps Executed:**\n"
      ++ "1. 📁 Analyzed current directory structure\n"
      ++ "2. 🏷️  Categorized files by type (documents, images, videos, archives)\n"
      ++ "3. 📂 Created organized subdirectories\n"
      ++ "4. 📦 Moved 47 files to appropriate locations\n"
      ++ "5. 🧹 Removed 3 duplicate files\n"
      ++ "6. 📋 Generated inventory report\n\n**Summary:**\n"
      ++ "- **Processed:** 47 files across 8 file types\n"
      ++ "- **Created:** 6 new directories\n"
      ++ "- **Space saved:** 125 MB (duplicates removed)\n"
      ++ "- **Time taken:** 2.3 seconds\n\n**New structure:**\n```\nDownloads/\n"
      ++ "├── Documents/ (12 files)\n├── Images/ (18 files)  \n├── Videos/ (8 files)\n"
      ++ "├── Archives/ (5 files)\n├── Software/ (3 files)\n└── Others/ (1 file)\n```\n\n"
      ++ "Organization complete! Your files are now properly categorized. 🎉"
  analysis :=
    "\n## Analysis Complete ✅\n\n**Executive Summary:**\n"
      ++ "Based on comprehensive analysis of the provided data/content, here are the key findings:\n\n"
      ++ "**Key Insights:**\n- 📊 **Structure:** Well-organized with clear patterns\n"
      ++ "- 🎯 **Strengths:** Strong foundation, good practices evident\n"
      ++ "- ⚠️  **Areas for Improvement:** 3 optimization opportunities identified\n"
      ++ "- 💡 **Recommendations:** 5 actionable next steps outlined\n\n**Detailed Findings:**\n"
      ++ "1. **Architecture Review** - Current structure is scalable and maintainable\n"
      ++ "2. **Performance Analysis** - 87% efficiency rating, room for 15% improvement  \n"
      ++ "3. **Best Practices** - Following 9/10 industry standards\n"
      ++ "4. **Risk Assessment** - Low risk profile, 2 minor concerns noted\n\n"
      ++ "**Recommendations:**\n1. 🔧 Optimize critical path performance\n"
      ++ "2. 📝 Update documentation gaps\n3. 🔒 Enhance security measures\n"
      ++ "4. 🚀 Consider automation opportunities\n5. 📈 Implement monitoring dashboards\n\n"
      ++ "**Next Steps:** Priority action items have been created for implementation."
  research :=
    "\n## Research Task Completed ✅\n\n"
      ++ "**Research Summary:** Comprehensive information gathering and analysis completed\n\n"
      ++ "**Key Findings:**\n- 📚 **Sources Analyzed:** 15+ authoritative sources\n"
      ++ "- 🔍 **Data Points:** 45+ relevant data points collected\n"
      ++ "- 📊 **Trends Identified:** 7 major trends in the domain\n"
      ++ "- 🎯 **Best Practices:** 12 industry best practices documented\n\n"
      ++ "**Research Highlights:**\n1. **Current State Analysis** - Market is growing 23% YoY\n"
      ++ "2. **Technology Trends** - AI/ML adoption accelerating rapidly\n"
      ++ "3. **Industry Leaders** - Top 5 players and their strategies\n"
      ++ "4. **Future Outlook** - Projected growth and disruption points\n\n"
      ++ "**Deliverables Created:**\n- 📋 Comprehensive comparison table\n"
      ++ "- 📈 Trend analysis report  \n- 🎯 Strategic recommendations\n"
      ++ "- 📚 Curated resource list\n- 🔗 Reference links and citations\n\n"
      ++ "**Files Saved:**\n- `research_summary_" ++ dateStr ++ ".md`\n"
      ++ "- `comparison_table.md`\n- `resource_links.txt`\n\n"
      ++ "Research complete with actionable insights! 🎉"
  coding :=
    "\n## Code Generation Complete ✅\n\n"
      ++ "**Task Summary:** Custom code solution implemented successfully\n\n"
      ++ "**Generated Components:**\n- 📄 **Main Function:** `processData.js` (125 lines)\n"
      ++ "- 🧪 **Unit Tests:** `processData.test.js` (87 lines)  \n"
      ++ "- 📚 **Documentation:** Inline comments + README\n"
      ++ "- 🔧 **Configuration:** Environment setup files\n\n"
      ++ "**Code Features:**\n- ✅ **Error Handling** - Robust error management\n"
      ++ "- ✅ **Type Safety** - Full TypeScript support  \n"
      ++ "- ✅ **Performance** - Optimized algorithms\n"
      ++ "- ✅ **Testing** - 95% test coverage\n"
      ++ "- ✅ **Documentation** - Comprehensive docs\n\n"
      ++ "**Example Implementation:**\n```javascript\n// Generated utility function\n"
      ++ "const processData = async (input, options = \x7b\x7d) => \x7b\n"
      ++ "  try \x7b\n    const validated = validateInput(input);\n"
      ++ "    const processed = await transform(validated, options);\n"
      ++ "    return \x7b success: true, data: processed \x7d;\n"
      ++ "  \x7d catch (error) \x7b\n"
      ++ "    return \x7b success: false, error: error.message \x7d;\n"
      ++ "  \x7d\n\x7d;\n\nmodule.exports = \x7b processData \x7d;\n```\n\n"
      ++ "**Installation:**\n```bash\nnpm install\nnpm test\nnpm start\n```\n\n"
      ++ "Code ready for production use! 🚀"
  generic :=
    "\n## Task Execution Complete ✅\n\n**Task:** \x7btask\x7d\n\n**Summary:**\n"
      ++ "Successfully analyzed and executed the requested task using advanced AI agent capabilities.\n\n"
      ++ "**Steps Performed:**\n1. 🧠 **Analysis Phase** - Broke down task requirements\n"
      ++ "2. 📋 **Planning Phase** - Created detailed execution plan  \n"
      ++ "3. ⚡ **Execution Phase** - Implemented solution systematically\n"
      ++ "4. ✅ **Validation Phase** - Verified results and quality\n"
      ++ "5. 📊 **Summary Phase** - Compiled final deliverables\n\n"
      ++ "**Key Outcomes:**\n- Task objectives met successfully\n- High quality results delivered\n"
      ++ "- Best practices followed throughout\n- Documentation generated\n- Ready for next steps\n\n"
      ++ "**Recommendations:**\nBased on the execution, consider these follow-up actions:\n"
      ++ "1. Review the delivered results\n2. Test the implementation \n"
      ++ "3. Integrate with existing workflows\n4. Monitor performance metrics\n"
      ++ "5. Iterate based on feedback\n\n"
      ++ "Task completed successfully! Ready for your next challenge. 🎉"

/-- JavaScript `hay.includes(needle)` on strings: `needle` occurs as a
contiguous substring of `hay`. -/
def includes (hay needle : String) : Bool :=
  hay.toList.tails.any (fun t => needle.toList.isPrefixOf t)

/-- Embeds `MockProvider.generateResponse(task)` (`src/providers/mock.js`
lines 47–72): keyword dispatch over the lowercased task. -/
def MockProvider.generateResponse (responses : MockResponses) (task : String) : String :=
  let taskLower := task.toLower
  if includes taskLower "file" || includes taskLower "folder" || includes taskLower "organize" then
    responses.fileOperations
  else if includes taskLower "analyz" || includes taskLower "review" || includes taskLower "examine" then
    responses.analysis
  else if includes taskLower "research" || includes taskLower "find" || includes taskLower "search" then
    responses.research
  else if includes taskLower "code" || includes taskLower "function" || includes taskLower "script" then
    responses.coding
  else
    responses.generic.replace "\x7btask\x7d" task

/-- Embeds `MockProvider.prompt(task, options)` (lines 31–41): after a simulated
delay it always resolves with a canned response — it never inspects
`process` or `isReady` and never rejects. -/
def MockProvider.prompt (responses : MockResponses) (task : String) :
    Except String String :=
  .ok (MockProvider.generateResponse responses task)

/-- Embeds `MockProvider.spawn()` (lines 18–29): sets the ready flag after a
simulated delay without ever creating a process handle. -/
def MockProvider.spawn (p : LLMProvider) : LLMProvider :=
  { p with isReady := true }

/-- Embeds `MockProvider.terminate()` (lines 241–244): clears only the ready
flag. -/
def MockProvider.terminate (p : LLMProvider) : LLMProvider :=
  { p with isReady := false }

/-- The `ProviderManager` registry (`src/core/provider-manager.js`):
`providers` is the insertion-ordered map from provider name to its
constructor (the class registered under that name), `activeProvider` the
at-most-one active instance, `configs` the per-name config store. -/
structure ProviderManager where
  providers : List (String × (String → LLMProvider))
  activeProvider : Option LLMProvider
  configs : String → Option String

/-- JavaScript `Map.prototype.set`: overwrite in place or append. -/
def mapSet {α : Type} (l : List (String × α)) (k : String) (v : α) :
    List (String × α) :=
  if (l.map Prod.fst).contains k then
    l.map (fun p => if p.1 = k then (k, v) else p)
  else
    l ++ [(k, v)]

/-- JavaScript `Map.prototype.get`. -/
def mapGet {α : Type} (l : List (String × α)) (k : String) : Option α :=
  (l.find? (fun p => p.1 == k)).map Prod.snd

/-- Embeds `ProviderManager.registerProvider(name, ProviderClass)`. -/
def ProviderManager.registerProvider (m : ProviderManager) (name : String)
    (ctor : String → LLMProvider) : ProviderManager :=
  { m with providers := mapSet m.providers name ctor }

/-- Embeds `ProviderManager.getAvailable()`: the registered names. -/
def ProviderManager.getAvailable (m : ProviderManager) : List String :=
  m.providers.map Prod.fst

/-- Embeds `ProviderManager.createProvider(name, config)` (lines 199–208):
throws for an unregistered name, otherwise constructs a fresh (not yet
started) instance and records the config. -/
def ProviderManager.createProvider (m : ProviderManager) (name config : String) :
    Except String (LLMProvider × ProviderManager) :=
  match mapGet m.providers name with
  | none =>
      .error ("Provider '" ++ name ++ "' not found. Available: "
        ++ String.intercalate ", " m.getAvailable)
  | some ctor =>
      .ok (ctor config,
        { m with configs := fun n => if n = name then some config else m.configs n })

/-- Embeds `ProviderManager.setActive(name, config)` (lines 213–223): first
terminates the previously active instance if any (without unsetting the
reference), then assigns `activeProvider` to a freshly constructed
instance and starts it.  `spawnRes` is the outcome of that instance's
`spawn()` call.  A `create` or `spawn` failure propagates. -/
def ProviderManager.setActive (m : ProviderManager) (name config : String)
    (spawnRes : LLMProvider → Except String LLMProvider) :
    Except String LLMProvider × ProviderManager :=
  let m1 :=
    match m.activeProvider with
    | some p => { m with activeProvider := some p.terminate }
    | none => m
  match m1.createProvider name config with
  | .error e => (.error e, m1)
  | .ok (fresh, m2) =>
      let m3 := { m2 with activeProvider := some fresh }
      match spawnRes fresh with
      | .error e => (.error e, m3)
      | .ok started => (.ok started, { m3 with activeProvider := some started })

/-- Embeds `ProviderManager.getActive()` (lines 228–233). -/
def ProviderManager.getActive (m : ProviderManager) : Except String LLMProvider :=
  match m.activeProvider with
  | none => .error "No active provider set. Call setActive() first."
  | some p => .ok p

/-- Embeds `ProviderManager.cleanup()` (lines 260–265): terminates the active
instance if any and clears the reference. -/
def ProviderManager.cleanup (m : ProviderManager) : ProviderManager :=
  match m.activeProvider with
  | some _ => { m with activeProvider := none }
  | none => m

/-- One planned unit of work: the step objects of the structured plan
payload (see the planning prompt of `src/core/task-executor.js` and
`createFallbackPlan`). -/
structure Step where
  id : Nat
  description : String
  type : String
  complexity : String
  optional : Bool
  dependencies : List Nat
deriving DecidableEq

/-- The structured plan object `createExecutionPlan` returns. -/
structure Plan where
  analysis : String
  complexity : String
  estimatedTime : String
  steps : List Step
deriving DecidableEq

/-- Status of one `StepResult`. -/
inductive StepStatus where
  | running
  | completed
  | failed
deriving DecidableEq

/-- Outcome of running one step (`executeStep`'s `stepResult` object).
Start/end timestamps are not modelled. -/
structure StepResult where
  stepId : Nat
  status : StepStatus
  output : Option String
  error : Option String
deriving DecidableEq

/-- Status of a `Task`. -/
inductive TaskStatus where
  | planning
  | executing
  | finalizing
  | completed
  | failed
deriving DecidableEq

/-- One unit of work: the `task` object built by
`TaskExecutor.executeTask` (`src/core/task-executor.js` lines 22–30).
Start/end timestamps are not modelled. -/
structure Task where
  id : String
  description : String
  status : TaskStatus
  steps : List Step
  results : List StepResult
  workingDirectory : String
  summary : Option String
  error : Option String
deriving DecidableEq

/-- The regex extraction `planResponse.match(/\x7b[\s\S]*\x7d/)`
(`src/core/task-executor.js` line 135) on a character list: the regex is
greedy, so the (leftmost-longest) match runs from the first brace
`Char.ofNat 123` that has a closing brace `Char.ofNat 125` somewhere
after it, through the last closing brace of the whole string. -/
def extractJsonChars (s : List Char) : Option (List Char) :=
  let rest := s.dropWhile (fun c => c != Char.ofNat 123)
  let kept := (rest.reverse.dropWhile (fun c => c != Char.ofNat 125)).reverse
  if kept.isEmpty then none else some kept

/-- String form of `extractJsonChars`. -/
def extractJson (s : String) : Option String :=
  (extractJsonChars s.toList).map (fun l => String.mk l)

/-- Modelled from the spec (§4.3 "Extracts the first balanced
brace-delimited substring from the reply"): depth-counting scan that
stops at the closing brace matching the first opening brace.  This is
the specification-side extraction, to be compared with the source-side
`extractJsonChars`. -/
def scanBalanced : List Char → Nat → List Char → Option (List Char)
  | [], _, _ => none
  | c :: rest, depth, acc =>
    if c = Char.ofNat 123 then scanBalanced rest (depth + 1) (acc ++ [c])
    else if c = Char.ofNat 125 then
      if depth ≤ 1 then some (acc ++ [c])
      else scanBalanced rest (depth - 1) (acc ++ [c])
    else scanBalanced rest depth (acc ++ [c])

/-- Modelled from the spec: the substring from the first opening brace
to its matching closing brace, when one exists. -/
def firstBalancedBrace (s : String) : Option String :=
  (scanBalanced (s.toList.dropWhile (fun c => c != Char.ofNat 123)) 0 []).map
    (fun l => String.mk l)

/-- Embeds `TaskExecutor.createFallbackPlan(taskDescription)`
(`src/core/task-executor.js` lines 234–258). -/
def createFallbackPlan (taskDescription : String) : Plan :=
  { analysis := "Fallback plan - JSON parsing failed"
    complexity := "MEDIUM"
    estimatedTime := "5-15 minutes"
    steps := [
      { id := 1, description := "Analyze the task requirements", type := "analysis"
        complexity := "LOW", optional := false, dependencies := [] },
      { id := 2, description := taskDescription, type := "execution"
        complexity := "MEDIUM", optional := false, dependencies := [1] } ] }

/-- The parsing half of `TaskExecutor.createExecutionPlan`
(`src/core/task-executor.js` lines 133–146), applied to the provider's
reply: extract the brace-delimited text with the greedy regex, then
`JSON.parse` it into a plan.  `parse` stands for the platform's
`JSON.parse` reading of the extracted text as a `Plan` (`none` models a
parse exception).  When extraction or parsing fails the fallback plan is
used instead of failing. -/
def createExecutionPlan (parse : String → Option Plan)
    (taskDescription planResponse : String) : Plan :=
  match extractJson planResponse with
  | none => createFallbackPlan taskDescription
  | some jsonText =>
    match parse jsonText with
    | none => createFallbackPlan taskDescription
    | some plan => plan

/-- Embeds `TaskExecutor.executeStep(step, task)` (`src/core/task-executor.js`
lines 151–198): `outcome` is the result of the provider call for this
step; a provider exception is caught and becomes a `failed` result
carrying the message. -/
def TaskExecutor.executeStep (step : Step) (outcome : Except String String) :
    StepResult :=
  match outcome with
  | .ok output =>
      { stepId := step.id, status := .completed, output := some output, error := none }
  | .error e =>
      { stepId := step.id, status := .failed, output := none, error := some e }

/-- The step loop of `TaskExecutor.executeTask` (lines 52–64):
`respond i` is the provider's answer to the `i`-th step call.  Results
accumulate in order; as soon as a result is `failed` and its step is not
optional, the loop throws `Critical step failed: <message>` (returned as
the second component) and no later step runs. -/
def execSteps (respond : Nat → Except String String) (idx : Nat) :
    List Step → List StepResult × Option String
  | [] => ([], none)
  | step :: rest =>
    let r := TaskExecutor.executeStep step (respond idx)
    if r.status = .failed ∧ step.optional = false then
      ([r], some ("Critical step failed: " ++ r.error.getD ""))
    else
      let p := execSteps respond (idx + 1) rest
      (r :: p.1, p.2)

/-- The engine's own state (`TaskExecutor` constructor, lines 10–16). -/
structure TaskExecutor where
  currentTask : Option Task
  taskHistory : List Task
  workingDirectory : String
deriving DecidableEq

/-- The provider's behavior over one whole task run: its reply (or
raised error) to the planning call, to each step call by position, and
to the summary call. -/
structure RunScript where
  planResp : Except String String
  stepResp : Nat → Except String String
  summaryResp : Except String String

/-- Everything observable at the end of `executeTask`: the final task
object, what the caller sees (the task, or the re-thrown error), and the
engine state. -/
structure RunResult where
  task : Task
  returned : Except String Task
  state : TaskExecutor

/-- Embeds `TaskExecutor.executeTask(taskDescription, options)`
(`src/core/task-executor.js` lines 21–94).  `taskId` stands for the
generated unique id, `parse` for `JSON.parse` on the extracted plan
text, and `script` for the active provider's answers.  Phases: planning
(a provider error here fails the task), plan parsing with fallback, the
step loop (a critical failure throws), finalizing (a provider error here
fails the task), completion.  Only the success path appends to
`taskHistory` and clears `currentTask`; the catch block leaves
`currentTask` pointing at the failed task and re-throws. -/
def TaskExecutor.executeTask (ex : TaskExecutor) (taskId taskDescription : String)
    (workDirOpt : Option String) (parse : String → Option Plan)
    (script : RunScript) : RunResult :=
  let task0 : Task :=
    { id := taskId, description := taskDescription, status := .planning
      steps := [], results := []
      workingDirectory := workDirOpt.getD ex.workingDirectory
      summary := none, error := none }
  let ex1 := { ex with currentTask := some task0 }
  match script.planResp with
  | .error e =>
      let t := { task0 with status := .failed, error := some e }
      { task := t, returned := .error e, state := { ex1 with currentTask := some t } }
  | .ok planResponse =>
      let plan := createExecutionPlan parse taskDescription planResponse
      let t1 := { task0 with steps := plan.steps, status := .executing }
      let stepOut := execSteps script.stepResp 0 plan.steps
      let t2 := { t1 with results := stepOut.1 }
      match stepOut.2 with
      | some e =>
          let t := { t2 with status := .failed, error := some e }
          { task := t, returned := .error e, state := { ex1 with currentTask := some t } }
      | none =>
          let t3 := { t2 with status := .finalizing }
          match script.summaryResp with
          | .error e =>
              let t := { t3 with status := .failed, error := some e }
              { task := t, returned := .error e,
                state := { ex1 with currentTask := some t } }
          | .ok summaryText =>
              let t4 := { t3 with summary := some summaryText, status := .completed }
              let ex2 := { ex1 with currentTask := none, taskHistory := ex1.taskHistory ++ [t4] }
              { task := t4, returned := .ok t4, state := ex2 }

end OpenCowork

namespace OpenCowork

/-- Embeds `new ClaudeCodeProvider(config)` (`src/providers/claude-code.js`
lines 8–15): optional `args`/`model` overrides with defaults. -/
def ClaudeCodeProvider.construct (argsOpt : Option (List String))
    (modelOpt : Option String) : LLMProvider :=
  LLMProvider.init "claude-code" "claude-code" (argsOpt.getD ["--interactive"])
    (modelOpt.getD "claude-3.5-sonnet")

/-- Embeds `new OllamaProvider(config)` (`src/providers/ollama.js` lines 8–15). -/
def OllamaProvider.construct (modelOpt : Option String) : LLMProvider :=
  LLMProvider.init "ollama" "ollama" ["run", modelOpt.getD "llama3:latest"]
    (modelOpt.getD "llama3:latest")

/-- Embeds `new MockProvider(config)` (`src/providers/mock.js` lines 8–16). -/
def MockProvider.construct : LLMProvider :=
  LLMProvider.init "mock" "mock-llm" [] "mock-agent-v1"

/-- Reachability invariant of the base class: the ready flag is only
ever set while a process handle exists (`spawn` sets both, `terminate`
and the close hook clear both). -/
theorem init_spawn_terminate_preserve_ready_inv (p p' : LLMProvider)
    (name cli : String) (args : List String) (model : String)
    (attempt : Except String Nat) :
    ((LLMProvider.init name cli args model).isReady = true →
      (LLMProvider.init name cli args model).process.isSome = true) ∧
    (p.spawn attempt = .ok p' → p'.isReady = true → p'.process.isSome = true) ∧
    ((p.isReady = true → p.process.isSome = true) →
      p.terminate.isReady = true → p.terminate.process.isSome = true) := by
  refine ⟨by simp [LLMProvider.init], ?_, ?_⟩
  · intro hsp
    unfold LLMProvider.spawn at hsp
    by_cases hp : p.process.isSome = true
    · simp [hp] at hsp
    · simp [hp] at hsp
      cases attempt with
      | error e => simp at hsp
      | ok h =>
          simp at hsp
          intro _
          rw [← hsp]
          simp
  · intro hInv
    unfold LLMProvider.terminate
    by_cases hp : p.process.isSome = true
    · simp [hp]
    · simp [hp]
      cases hr : p.isReady
      · rfl
      · exact False.elim (hp (hInv hr))

/-- C9: `terminate` is idempotent — after one call (on any state
reachable for the base class, i.e. one where the ready flag implies a
live handle) the process handle is cleared and the ready flag is down,
and a second call changes nothing and raises nothing (it is a total
function). -/
theorem terminate_twice_idempotent (p : LLMProvider)
    (hInv : p.isReady = true → p.process.isSome = true) :
    p.terminate.process = none ∧ p.terminate.isReady = false ∧
    p.terminate.terminate = p.terminate := by
  cases hp : p.process with
  | some h => simp [LLMProvider.terminate, hp]
  | none =>
    have hr : p.isReady = false := by
      cases hr : p.isReady
      · rfl
      · have := hInv hr
        rw [hp] at this
        simp at this
    simp [LLMProvider.terminate, hp, hr]

/-- Witness for C9 at a concrete running ollama instance. -/
theorem terminate_twice_idempotent_witness :
    let pW : LLMProvider :=
      { name := "ollama", cli := "ollama", args := ["run", "llama3:latest"]
        model := "llama3:latest", process := some 3, isReady := true }
    pW.terminate.process = none ∧ pW.terminate.isReady = false ∧
    pW.terminate.terminate = pW.terminate :=
  terminate_twice_idempotent _ (fun _ => rfl)

/-- C6: for a ready base-class instance, one `prompt` call resolves the
exchange exactly as specified — timeout rejection naming the configured
bound (default 30000), rejection carrying the stderr buffer when it is
non-empty at end-of-stream, and the trimmed stdout buffer otherwise. -/
theorem prompt_exchange_contract (p : LLMProvider) (task : String)
    (tOpt : Option Nat) (env : String → ExchangeEvent)
    (hp : p.process.isSome = true) (hr : p.isReady = true) :
    (env (task ++ "\n") = .timeout →
      p.prompt task tOpt env =
        .error ("Timeout: " ++ p.name ++ " did not respond within "
          ++ toString (orDefault tOpt 30000) ++ "ms")) ∧
    (∀ out err, env (task ++ "\n") = .endOfStream out err → err ≠ "" →
      p.prompt task tOpt env = .error (p.name ++ " error: " ++ err)) ∧
    (∀ out, env (task ++ "\n") = .endOfStream out "" →
      p.prompt task tOpt env = .ok out.trim) := by
  obtain ⟨h, hph⟩ := Option.isSome_iff_exists.mp hp
  refine ⟨fun hev => ?_, fun out err hev hne => ?_, fun out hev => ?_⟩
  · simp [LLMProvider.prompt, hph, hr, hev]
  · simp [LLMProvider.prompt, hph, hr, hev, hne]
  · simp [LLMProvider.prompt, hph, hr, hev]

/-- A concrete running, ready instance used by witnesses. -/
def readyMock : LLMProvider :=
  { name := "mock", cli := "mock-llm", args := [], model := "mock-agent-v1"
    process := some 1, isReady := true }

/-- Witness for C6: both failure branches and the success branch at
concrete instances. -/
theorem prompt_exchange_contract_witness :
    readyMock.prompt "hi" (some 5000) (fun _ => .timeout) =
        .error ("Timeout: mock did not respond within "
          ++ toString (orDefault (some 5000) 30000) ++ "ms") ∧
    readyMock.prompt "hi" none (fun _ => .endOfStream "out" "bad bytes") =
        .error "mock error: bad bytes" ∧
    readyMock.prompt "hi" none (fun _ => .endOfStream " ok! " "") = .ok (" ok! ".trim) := by
  refine ⟨?_, ?_, ?_⟩
  · exact (prompt_exchange_contract readyMock "hi" (some 5000) _ rfl rfl).1 rfl
  · exact (prompt_exchange_contract readyMock "hi" none _ rfl rfl).2.1 "out" "bad bytes" rfl (by simp)
  · exact (prompt_exchange_contract readyMock "hi" none _ rfl rfl).2.2 " ok! " rfl

/-- C10: `OllamaProvider.prompt` sends every request under a 60000 ms
bound — its result does not depend on the caller-supplied timeout at
all, and in particular a call made with the engine's 30000 ms option
that times out fails naming 60000 ms. -/
theorem ollama_timeout_always_60000 (p : LLMProvider) (task : String)
    (t1 t2 : Option Nat) (attempt : Except String Nat)
    (env : String → ExchangeEvent) :
    OllamaProvider.prompt p task t1 attempt env =
      OllamaProvider.prompt p task t2 attempt env ∧
    (p.process.isSome = true → p.isReady = true →
      env (ollamaEnhance task ++ "\n") = .timeout →
      (OllamaProvider.prompt p task (some 30000) attempt env).1 =
        .error ("Timeout: " ++ p.name ++ " did not respond within "
          ++ toString (60000 : Nat) ++ "ms")) := by
  refine ⟨rfl, fun hp hr hev => ?_⟩
  obtain ⟨h, hph⟩ := Option.isSome_iff_exists.mp hp
  simp [OllamaProvider.prompt, LLMProvider.prompt, hph, hr, hev, orDefault]

/-- Witness for C10 at a concrete ready ollama instance. -/
theorem ollama_timeout_always_60000_witness :
    let pW : LLMProvider :=
      { name := "ollama", cli := "ollama", args := ["run", "llama3:latest"]
        model := "llama3:latest", process := some 2, isReady := true }
    (OllamaProvider.prompt pW "plan this" (some 30000) (.ok 9) (fun _ => .timeout)).1 =
      .error "Timeout: ollama did not respond within 60000ms" := by
  have h := (ollama_timeout_always_60000
    { name := "ollama", cli := "ollama", args := ["run", "llama3:latest"]
      model := "llama3:latest", process := some 2, isReady := true }
    "plan this" (some 30000) (some 30000) (.ok 9) (fun _ => .timeout)).2 rfl rfl rfl
  exact h

end OpenCowork

namespace OpenCowork

/-- Counterexample to C5: a freshly constructed (never started)
claude-code provider has no running, ready process, yet calling its
`prompt` does not fail with the not-ready error — it spawns the backend
and completes the exchange successfully. -/
theorem claude_not_ready_prompt_succeeds :
    (ClaudeCodeProvider.prompt (ClaudeCodeProvider.construct none none) "hi" none
        (.ok 7) (fun _ => .endOfStream "done" "")).1 = .ok ("done".trim) ∧
    (ClaudeCodeProvider.prompt (ClaudeCodeProvider.construct none none) "hi" none
        (.ok 7) (fun _ => .endOfStream "done" "")).1 ≠
      .error "Provider claude-code is not ready" := by
  have h1 : (ClaudeCodeProvider.prompt (ClaudeCodeProvider.construct none none) "hi" none
      (.ok 7) (fun _ => .endOfStream "done" "")).1 = .ok ("done".trim) := rfl
  exact ⟨h1, by rw [h1]; simp⟩

/-- C5 (amended): only the base class rejects a `prompt` on an instance
with no running ready process.  The claude-code and ollama subclasses
instead spawn the backend on demand (the returned state is the spawned
instance) and proceed with the exchange, succeeding with the trimmed
output when the backend replies with no error bytes; the mock variant
never rejects at all. -/
theorem prompt_readiness_per_variant (p : LLMProvider) (task : String)
    (tOpt : Option Nat) (h : Nat) (env : String → ExchangeEvent)
    (resp : MockResponses) (hnr : p.process = none ∨ p.isReady = false) :
    p.prompt task tOpt env = .error ("Provider " ++ p.name ++ " is not ready") ∧
    (p.process = none →
      (ClaudeCodeProvider.prompt p task tOpt (.ok h) env).2 =
          { p with process := some h, isReady := true } ∧
      ∀ out, env (claudeCodeEnhance task ++ "\n") = .endOfStream out "" →
        (ClaudeCodeProvider.prompt p task tOpt (.ok h) env).1 = .ok out.trim) ∧
    (p.process = none →
      (OllamaProvider.prompt p task tOpt (.ok h) env).2 =
          { p with process := some h, isReady := true } ∧
      ∀ out, env (ollamaEnhance task ++ "\n") = .endOfStream out "" →
        (OllamaProvider.prompt p task tOpt (.ok h) env).1 = .ok out.trim) ∧
    (∀ msg, MockProvider.prompt resp task ≠ .error msg) := by
  refine ⟨?_, ?_, ?_, ?_⟩
  · unfold LLMProvider.prompt
    rw [if_pos hnr]
  · intro hpn
    constructor
    · simp [ClaudeCodeProvider.prompt, LLMProvider.spawn, hpn]
    · intro out hev
      simp [ClaudeCodeProvider.prompt, LLMProvider.spawn, LLMProvider.prompt, hpn, hev]
  · intro hpn
    constructor
    · simp [OllamaProvider.prompt, LLMProvider.spawn, hpn]
    · intro out hev
      simp [OllamaProvider.prompt, LLMProvider.spawn, LLMProvider.prompt, hpn, hev]
  · intro msg
    simp [MockProvider.prompt]

/-- Witness for C5 (amended) at concrete not-ready instances of each
variant. -/
theorem prompt_readiness_per_variant_witness :
    (ClaudeCodeProvider.construct none none).prompt "go" none (fun _ => .timeout) =
        .error "Provider claude-code is not ready" ∧
    (ClaudeCodeProvider.prompt (ClaudeCodeProvider.construct none none) "go" none (.ok 4)
        (fun _ => .endOfStream " out " "")).1 = .ok (" out ".trim) ∧
    (OllamaProvider.prompt (OllamaProvider.construct none) "go" none (.ok 4)
        (fun _ => .endOfStream " out " "")).1 = .ok (" out ".trim) ∧
    MockProvider.prompt (MockProvider.initializeResponses "2026-10-11") "go" ≠
        .error "Provider mock is not ready" := by
  refine ⟨?_, ?_, ?_, ?_⟩
  · exact (prompt_readiness_per_variant (ClaudeCodeProvider.construct none none) "go"
      none 4 (fun _ => .timeout) (MockProvider.initializeResponses "2026-10-11")
      (Or.inl rfl)).1
  · exact ((prompt_readiness_per_variant (ClaudeCodeProvider.construct none none) "go"
      none 4 (fun _ => .endOfStream " out " "") (MockProvider.initializeResponses "2026-10-11")
      (Or.inl rfl)).2.1 rfl).2 " out " rfl
  · exact ((prompt_readiness_per_variant (OllamaProvider.construct none) "go"
      none 4 (fun _ => .endOfStream " out " "") (MockProvider.initializeResponses "2026-10-11")
      (Or.inl rfl)).2.2.1 rfl).2 " out " rfl
  · exact (prompt_readiness_per_variant (OllamaProvider.construct none) "go"
      none 4 (fun _ => .timeout) (MockProvider.initializeResponses "2026-10-11")
      (Or.inl rfl)).2.2.2 "Provider mock is not ready"

end OpenCowork

namespace OpenCowork

/-- A registry holding only the unconditionally registered mock
provider, with nothing activated yet. -/
def mgrMock : ProviderManager :=
  { providers := [("mock", fun _ => MockProvider.construct)]
    activeProvider := none
    configs := fun _ => none }

/-- A registry with no registrations and nothing activated. -/
def mgrEmpty : ProviderManager :=
  { providers := [], activeProvider := none, configs := fun _ => none }

/-- Counterexample to C4: when `setActive` fails because the new
provider's `spawn` raises, the error is propagated but the registry is
left with the freshly constructed, never-started instance recorded as
active — a subsequent `getActive` succeeds instead of failing with the
no-active-provider error. -/
theorem setActive_spawn_failure_keeps_active :
    (mgrMock.setActive "mock" "" (fun p => p.spawn (.error "spawn boom"))).1 =
        .error "spawn boom" ∧
    (mgrMock.setActive "mock" "" (fun p => p.spawn (.error "spawn boom"))).2.getActive =
        .ok MockProvider.construct ∧
    (mgrMock.setActive "mock" "" (fun p => p.spawn (.error "spawn boom"))).2.getActive ≠
        .error "No active provider set. Call setActive() first." := by
  have h2 : (mgrMock.setActive "mock" "" (fun p => p.spawn (.error "spawn boom"))).2.getActive =
      .ok MockProvider.construct := rfl
  exact ⟨rfl, h2, by rw [h2]; simp⟩

/-- C4 (amended): a failing `setActive` propagates the raised error, but
only the unknown-name failure on a registry that never had an active
provider leaves `getActive` failing with the no-active-provider error.
An unknown-name failure after a previous activation leaves the previous
(terminated) instance active, and a `spawn` failure leaves the fresh,
never-started instance active. -/
theorem setActive_failure_cases (m : ProviderManager) (name config : String)
    (spawnRes : LLMProvider → Except String LLMProvider) :
    (mapGet m.providers name = none → m.activeProvider = none →
      (m.setActive name config spawnRes).1 =
        .error ("Provider '" ++ name ++ "' not found. Available: "
          ++ String.intercalate ", " m.getAvailable) ∧
      (m.setActive name config spawnRes).2.getActive =
        .error "No active provider set. Call setActive() first.") ∧
    (∀ p, mapGet m.providers name = none → m.activeProvider = some p →
      (m.setActive name config spawnRes).1 =
        .error ("Provider '" ++ name ++ "' not found. Available: "
          ++ String.intercalate ", " m.getAvailable) ∧
      (m.setActive name config spawnRes).2.getActive = .ok p.terminate) ∧
    (∀ ctor e, mapGet m.providers name = some ctor →
      spawnRes (ctor config) = .error e →
      (m.setActive name config spawnRes).1 = .error e ∧
      (m.setActive name config spawnRes).2.getActive = .ok (ctor config)) := by
  refine ⟨fun hu ha => ?_, fun p hu ha => ?_, fun ctor e hc hs => ?_⟩
  · simp [ProviderManager.setActive, ProviderManager.createProvider,
      ProviderManager.getActive, ProviderManager.getAvailable, hu, ha]
  · simp [ProviderManager.setActive, ProviderManager.createProvider,
      ProviderManager.getActive, ProviderManager.getAvailable, hu, ha]
  · cases ha : m.activeProvider with
    | none =>
        simp [ProviderManager.setActive, ProviderManager.createProvider,
          ProviderManager.getActive, ha, hc, hs]
    | some p =>
        simp [ProviderManager.setActive, ProviderManager.createProvider,
          ProviderManager.getActive, ha, hc, hs]

/-- Witness for C4 (amended): the unknown-name case on an empty registry
and the spawn-failure case on the mock registry, both concrete. -/
theorem setActive_failure_cases_witness :
    ((mgrEmpty.setActive "nope" "" (fun p => .ok p)).1 =
        .error ("Provider '" ++ "nope" ++ "' not found. Available: "
          ++ String.intercalate ", " mgrEmpty.getAvailable) ∧
      (mgrEmpty.setActive "nope" "" (fun p => .ok p)).2.getActive =
        .error "No active provider set. Call setActive() first.") ∧
    ((mgrMock.setActive "mock" "" (fun p => p.spawn (.error "boom"))).1 = .error "boom" ∧
      (mgrMock.setActive "mock" "" (fun p => p.spawn (.error "boom"))).2.getActive =
        .ok ((fun (_ : String) => MockProvider.construct) "")) := by
  constructor
  · exact (setActive_failure_cases mgrEmpty "nope" "" (fun p => .ok p)).1 rfl rfl
  · exact (setActive_failure_cases mgrMock "mock" "" (fun p => p.spawn (.error "boom"))).2.2
      (fun _ => MockProvider.construct) "boom" rfl rfl

end OpenCowork

namespace OpenCowork

/-- C3: when the planning reply has no brace-delimited substring, or the
extracted substring fails to parse, the plan phase yields exactly the
fixed 2-step fallback plan (and `createExecutionPlan` is total — the
task is not failed). -/
theorem plan_parse_fallback (parse : String → Option Plan) (descr reply : String)
    (h : extractJson reply = none ∨
      ∃ j, extractJson reply = some j ∧ parse j = none) :
    createExecutionPlan parse descr reply = createFallbackPlan descr ∧
    (createFallbackPlan descr).steps = [
      { id := 1, description := "Analyze the task requirements", type := "analysis"
        complexity := "LOW", optional := false, dependencies := [] },
      { id := 2, description := descr, type := "execution"
        complexity := "MEDIUM", optional := false, dependencies := [1] } ] := by
  refine ⟨?_, rfl⟩
  rcases h with h | ⟨j, hj, hp⟩
  · simp [createExecutionPlan, h]
  · simp [createExecutionPlan, hj, hp]

/-- Witness for C3: a plain-prose reply with no brace at all. -/
theorem plan_parse_fallback_witness :
    createExecutionPlan (fun _ => none) "demo task"
        "I would follow these steps: first analyze, then execute."
      = createFallbackPlan "demo task" ∧
    (createFallbackPlan "demo task").steps.length = 2 := by
  constructor
  · exact (plan_parse_fallback (fun _ => none) "demo task"
      "I would follow these steps: first analyze, then execute." (Or.inl rfl)).1
  · rfl

/-- Dropping over an append when every element of the first part
satisfies the predicate. -/
theorem dropWhile_append_all {p : Char → Bool} (a l : List Char)
    (h : ∀ x ∈ a, p x = true) :
    List.dropWhile p (a ++ l) = List.dropWhile p l := by
  induction a with
  | nil => rfl
  | cons x xs ih =>
      have hx := h x (List.mem_cons_self x xs)
      simp only [List.cons_append, List.dropWhile_cons, hx, if_true]
      exact ih (fun y hy => h y (List.mem_cons_of_mem x hy))

/-- Dropping stops at the first element refuting the predicate. -/
theorem dropWhile_cons_of_false {p : Char → Bool} {x : Char} (l : List Char)
    (h : p x = false) :
    List.dropWhile p (x :: l) = x :: l := by
  simp [List.dropWhile_cons, h]

/-- The greedy regex extraction characterized: on a reply shaped
`a ++ t ++ c` where `a` holds no opening brace, `c` holds no closing
brace, and `t` starts with an opening brace and ends with a closing
brace, the whole of `t` is extracted — from the first opening brace to
the last closing brace of the reply. -/
theorem extractJsonChars_spec (a t c : List Char)
    (ha : ∀ x ∈ a, x ≠ Char.ofNat 123)
    (hc : ∀ x ∈ c, x ≠ Char.ofNat 125)
    (ht1 : t.head? = some (Char.ofNat 123))
    (ht2 : t.getLast? = some (Char.ofNat 125)) :
    extractJsonChars (a ++ t ++ c) = some t := by
  cases t with
  | nil => simp at ht1
  | cons ob t' =>
    have hob : ob = Char.ofNat 123 := by simpa using ht1
    have h1 : List.dropWhile (fun x => x != Char.ofNat 123) (a ++ (ob :: t') ++ c)
        = (ob :: t') ++ c := by
      rw [List.append_assoc]
      rw [dropWhile_append_all a _ (fun x hx => by simp [ha x hx])]
      exact dropWhile_cons_of_false _ (by simp [hob])
    have ht2' : (ob :: t').reverse.head? = some (Char.ofNat 125) := by
      rw [List.head?_reverse]
      exact ht2
    cases hr : (ob :: t').reverse with
    | nil => rw [hr] at ht2'; simp at ht2'
    | cons y r' =>
      have hy : y = Char.ofNat 125 := by
        rw [hr] at ht2'
        simpa using ht2'
      have h2 : List.dropWhile (fun x => x != Char.ofNat 125)
          (((ob :: t') ++ c).reverse) = (ob :: t').reverse := by
        rw [List.reverse_append]
        rw [dropWhile_append_all c.reverse _
          (fun x hx => by simp [hc x (List.mem_reverse.mp hx)])]
        rw [hr]
        exact dropWhile_cons_of_false _ (by simp [hy])
      simp only [extractJsonChars]
      rw [h1, h2, List.reverse_reverse]
      simp

/-- C8 (amended): the plan phase extracts the substring running from the
first opening brace of the reply to the last closing brace of the reply
(the greedy match of the extraction regex) — not the first *balanced*
brace-delimited substring — and parses that, falling back when the parse
fails. -/
theorem plan_extraction_greedy (parse : String → Option Plan) (descr : String)
    (a t c : List Char)
    (ha : ∀ x ∈ a, x ≠ Char.ofNat 123)
    (hc : ∀ x ∈ c, x ≠ Char.ofNat 125)
    (ht1 : t.head? = some (Char.ofNat 123))
    (ht2 : t.getLast? = some (Char.ofNat 125)) :
    extractJson (String.mk (a ++ t ++ c)) = some (String.mk t) ∧
    createExecutionPlan parse descr (String.mk (a ++ t ++ c)) =
      (match parse (String.mk t) with
       | some plan => plan
       | none => createFallbackPlan descr) := by
  have he : extractJson (String.mk (a ++ t ++ c)) = some (String.mk t) := by
    unfold extractJson
    rw [show (String.mk (a ++ t ++ c)).toList = a ++ t ++ c from rfl]
    rw [extractJsonChars_spec a t c ha hc ht1 ht2]
    rfl
  refine ⟨he, ?_⟩
  unfold createExecutionPlan
  rw [he]
  cases hp : parse (String.mk t) <;> simp [hp]

/-- A plan distinct from every fallback plan, used to exhibit the
counterexample parse behavior. -/
def planW : Plan :=
  { analysis := "w", complexity := "LOW", estimatedTime := "1m", steps := [] }

/-- Counterexample to C8: on the reply `"\x7b\x7d \x7b\x7d"` the code
extracts the whole reply (first opening brace to *last* closing brace),
not the first balanced brace-delimited substring `"\x7b\x7d"`; with a
parser that accepts exactly `"\x7b\x7d"`, the plan phase therefore falls
back instead of returning the parsed plan the claim would demand. -/
theorem extraction_not_first_balanced :
    extractJson "\x7b\x7d \x7b\x7d" = some "\x7b\x7d \x7b\x7d" ∧
    firstBalancedBrace "\x7b\x7d \x7b\x7d" = some "\x7b\x7d" ∧
    extractJson "\x7b\x7d \x7b\x7d" ≠ firstBalancedBrace "\x7b\x7d \x7b\x7d" ∧
    createExecutionPlan (fun j => if j = "\x7b\x7d" then some planW else none)
        "d" "\x7b\x7d \x7b\x7d" = createFallbackPlan "d" ∧
    createFallbackPlan "d" ≠ planW := by
  refine ⟨rfl, rfl, by decide, rfl, by decide⟩

end OpenCowork

namespace OpenCowork

/-- The step loop never records more results than there are steps. -/
theorem execSteps_length (respond : Nat → Except String String) :
    ∀ (steps : List Step) (idx : Nat),
      (execSteps respond idx steps).1.length ≤ steps.length := by
  intro steps
  induction steps with
  | nil => intro idx; simp [execSteps]
  | cons st rest ih =>
      intro idx
      simp only [execSteps]
      by_cases hcond : (TaskExecutor.executeStep st (respond idx)).status = .failed ∧
          st.optional = false
      · rw [if_pos hcond]
        simp
      · rw [if_neg hcond]
        simpa using ih (idx + 1)

/-- If some recorded result is `failed` at a position whose step is
non-optional, the loop stopped right there: that result is the last one
and the loop threw the critical-step error built from its message. -/
theorem execSteps_critical (respond : Nat → Except String String) :
    ∀ (steps : List Step) (idx i : Nat) (r : StepResult) (s : Step),
      (execSteps respond idx steps).1.get? i = some r →
      steps.get? i = some s →
      r.status = .failed → s.optional = false →
      (execSteps respond idx steps).1.length = i + 1 ∧
      (execSteps respond idx steps).2 =
        some ("Critical step failed: " ++ r.error.getD "") := by
  intro steps
  induction steps with
  | nil =>
      intro idx i r s hr
      simp [execSteps] at hr
  | cons st rest ih =>
      intro idx i r s hr hs hrf hso
      simp only [execSteps] at hr ⊢
      by_cases hcond : (TaskExecutor.executeStep st (respond idx)).status = .failed ∧
          st.optional = false
      · rw [if_pos hcond] at hr ⊢
        cases i with
        | zero =>
            simp only [List.get?] at hr
            cases hr
            exact ⟨rfl, rfl⟩
        | succ j =>
            simp only [List.get?] at hr
            cases j <;> simp at hr
      · rw [if_neg hcond] at hr ⊢
        cases i with
        | zero =>
            simp only [List.get?] at hr hs
            cases hr
            cases hs
            exact absurd ⟨hrf, hso⟩ hcond
        | succ j =>
            simp only [List.get?] at hr hs
            have h := ih (idx + 1) j r s hr hs hrf hso
            exact ⟨by simp [h.1], h.2⟩

/-- C1: in every finished task, at most as many results as steps were
recorded, and a `failed` result at a non-optional position is the last
result recorded; the task then is `failed` with its `error` built from
the triggering step's message. -/
theorem task_critical_step_abort (ex : TaskExecutor) (taskId descr : String)
    (wd : Option String) (parse : String → Option Plan) (script : RunScript)
    (t : Task) (ht : t = (ex.executeTask taskId descr wd parse script).task) :
    t.results.length ≤ t.steps.length ∧
    ∀ i r s, t.results.get? i = some r → t.steps.get? i = some s →
      r.status = .failed → s.optional = false →
      t.results.length = i + 1 ∧ t.status = .failed ∧
      t.error = some ("Critical step failed: " ++ r.error.getD "") := by
  subst ht
  rcases hplan : script.planResp with e | pr
  · constructor
    · simp [TaskExecutor.executeTask, hplan]
    · intro i r s hr
      simp [TaskExecutor.executeTask, hplan] at hr
  · simp only [TaskExecutor.executeTask, hplan]
    have hlen := execSteps_length script.stepResp
      ((createExecutionPlan parse descr pr).steps) 0
    have hcrit := execSteps_critical script.stepResp
      ((createExecutionPlan parse descr pr).steps) 0
    rcases hE : execSteps script.stepResp 0 ((createExecutionPlan parse descr pr).steps)
      with ⟨res, fatal⟩
    rw [hE] at hlen
    simp only [hE] at hcrit
    cases fatal with
    | some e =>
        refine ⟨by simpa using hlen, fun i r s hr hs h3 h4 => ?_⟩
        simp only [] at hr hs
        have h := hcrit i r s (by simpa using hr) (by simpa using hs) h3 h4
        refine ⟨by simpa using h.1, by simp, ?_⟩
        have he : some e = some ("Critical step failed: " ++ r.error.getD "") := h.2
        simpa using he
    | none =>
        cases hsum : script.summaryResp with
        | error e2 =>
            refine ⟨by simpa using hlen, fun i r s hr hs h3 h4 => ?_⟩
            have h := hcrit i r s (by simpa using hr) (by simpa using hs) h3 h4
            exact absurd h.2 (by simp)
        | ok sm =>
            refine ⟨by simpa using hlen, fun i r s hr hs h3 h4 => ?_⟩
            have h := hcrit i r s (by simpa using hr) (by simpa using hs) h3 h4
            exact absurd h.2 (by simp)

end OpenCowork

namespace OpenCowork

/-- A fresh engine with empty history, used by witnesses. -/
def exW : TaskExecutor :=
  { currentTask := none, taskHistory := [], workingDirectory := "/w" }

/-- Provider behavior whose every step call fails. -/
def scriptCritical : RunScript :=
  { planResp := .ok "no json here", stepResp := fun _ => .error "boom"
    summaryResp := .ok "sum" }

/-- Witness for C1: with the fallback plan (two non-optional steps) and
a provider failing the first step call, exactly one result is recorded,
the task fails and its error carries the step's message. -/
theorem task_critical_step_abort_witness :
    (exW.executeTask "t1" "demo" none (fun _ => none) scriptCritical).task.results.length = 1 ∧
    (exW.executeTask "t1" "demo" none (fun _ => none) scriptCritical).task.status = .failed ∧
    (exW.executeTask "t1" "demo" none (fun _ => none) scriptCritical).task.error =
      some "Critical step failed: boom" := by
  have h := (task_critical_step_abort exW "t1" "demo" none (fun _ => none)
      scriptCritical _ rfl).2
    0 { stepId := 1, status := .failed, output := none, error := some "boom" }
    { id := 1, description := "Analyze the task requirements", type := "analysis"
      complexity := "LOW", optional := false, dependencies := [] }
    rfl rfl rfl rfl
  exact ⟨h.1, h.2.1, h.2.2⟩

/-- C2: on a 3-step plan `[non-optional, optional, non-optional]` where
only the second step's provider call fails, the third step is still
executed and recorded, and the task completes. -/
theorem optional_step_tolerance (ex : TaskExecutor) (taskId descr : String)
    (wd : Option String) (parse : String → Option Plan) (script : RunScript)
    (pr : String) (s1 s2 s3 : Step) (o1 e2 o3 sm : String)
    (hplan : script.planResp = .ok pr)
    (hsteps : (createExecutionPlan parse descr pr).steps = [s1, s2, s3])
    (h1 : s1.optional = false) (h2 : s2.optional = true) (h3 : s3.optional = false)
    (r0 : script.stepResp 0 = .ok o1) (r1 : script.stepResp 1 = .error e2)
    (r2 : script.stepResp 2 = .ok o3) (hsum : script.summaryResp = .ok sm) :
    (ex.executeTask taskId descr wd parse script).task.status = .completed ∧
    (ex.executeTask taskId descr wd parse script).task.results.length = 3 ∧
    (ex.executeTask taskId descr wd parse script).task.results.get? 2 =
      some (TaskExecutor.executeStep s3 (.ok o3)) ∧
    (ex.executeTask taskId descr wd parse script).task.summary = some sm := by
  have hE : execSteps script.stepResp 0 [s1, s2, s3] =
      ([TaskExecutor.executeStep s1 (.ok o1), TaskExecutor.executeStep s2 (.error e2),
        TaskExecutor.executeStep s3 (.ok o3)], none) := by
    simp [execSteps, TaskExecutor.executeStep, r0, r1, r2, h2]
  simp [TaskExecutor.executeTask, hplan, hsteps, hE, hsum]

/-- Steps and script used by the C2 witness. -/
def stepA : Step :=
  { id := 1, description := "a", type := "analysis", complexity := "LOW"
    optional := false, dependencies := [] }

def stepB : Step :=
  { id := 2, description := "b", type := "web", complexity := "LOW"
    optional := true, dependencies := [1] }

def stepC : Step :=
  { id := 3, description := "c", type := "execution", complexity := "LOW"
    optional := false, dependencies := [2] }

def plan3 : Plan :=
  { analysis := "p", complexity := "LOW", estimatedTime := "1m"
    steps := [stepA, stepB, stepC] }

def script3 : RunScript :=
  { planResp := .ok "\x7b\x7d"
    stepResp := fun i =>
      match i with
      | 0 => .ok "one"
      | 1 => .error "mid fail"
      | _ => .ok "three"
    summaryResp := .ok "done" }

/-- Witness for C2 at the concrete 3-step plan. -/
theorem optional_step_tolerance_witness :
    (exW.executeTask "t4" "demo" none (fun _ => some plan3) script3).task.status = .completed ∧
    (exW.executeTask "t4" "demo" none (fun _ => some plan3) script3).task.results.length = 3 ∧
    (exW.executeTask "t4" "demo" none (fun _ => some plan3) script3).task.results.get? 2 =
      some { stepId := 3, status := .completed, output := some "three", error := none } ∧
    (exW.executeTask "t4" "demo" none (fun _ => some plan3) script3).task.summary =
      some "done" := by
  have h := optional_step_tolerance exW "t4" "demo" none (fun _ => some plan3) script3
    "\x7b\x7d" stepA stepB stepC "one" "mid fail" "three" "done"
    rfl rfl rfl rfl rfl rfl rfl rfl rfl
  exact ⟨h.1, h.2.1, h.2.2.1, h.2.2.2⟩

/-- Provider behavior whose planning call raises (e.g. a plan-phase
timeout). -/
def failScript : RunScript :=
  { planResp := .error "plan timeout", stepResp := fun _ => .ok "x"
    summaryResp := .ok "s" }

/-- Counterexample to C7: a failed run leaves the history list untouched
and the current-task reference still set — the failure exit does not
perform the success path's bookkeeping. -/
theorem failed_task_not_in_history :
    (exW.executeTask "t2" "demo" none (fun _ => none) failScript).task.status = .failed ∧
    (exW.executeTask "t2" "demo" none (fun _ => none) failScript).state.taskHistory = [] ∧
    (exW.executeTask "t2" "demo" none (fun _ => none) failScript).state.currentTask =
      some (exW.executeTask "t2" "demo" none (fun _ => none) failScript).task ∧
    (exW.executeTask "t2" "demo" none (fun _ => none) failScript).state.currentTask ≠
      none := by
  refine ⟨rfl, rfl, rfl, ?_⟩
  intro h
  exact Option.noConfusion h

/-- C7 (amended): every run ends `completed` or `failed`; only the
success exit appends the task to the history and clears the current-task
reference, while the failure exit leaves the history untouched, keeps
the current-task reference on the failed task, and re-throws the error
recorded in the task's `error` field. -/
theorem executeTask_exit_state (ex : TaskExecutor) (taskId descr : String)
    (wd : Option String) (parse : String → Option Plan) (script : RunScript)
    (r : RunResult) (hr : r = ex.executeTask taskId descr wd parse script) :
    (r.task.status = .completed ∨ r.task.status = .failed) ∧
    (r.task.status = .completed →
      r.state.taskHistory = ex.taskHistory ++ [r.task] ∧
      r.state.currentTask = none ∧ r.returned = .ok r.task) ∧
    (r.task.status = .failed →
      r.state.taskHistory = ex.taskHistory ∧
      r.state.currentTask = some r.task ∧
      ∃ e, r.returned = .error e ∧ r.task.error = some e) := by
  subst hr
  rcases hplan : script.planResp with e | pr
  · simp [TaskExecutor.executeTask, hplan]
  · simp only [TaskExecutor.executeTask, hplan]
    rcases hE : execSteps script.stepResp 0 ((createExecutionPlan parse descr pr).steps)
      with ⟨res, fatal⟩
    simp only [hE]
    cases fatal with
    | some e => simp
    | none =>
        cases hsum : script.summaryResp with
        | error e2 => simp [hsum]
        | ok sm => simp [hsum]

/-- Provider behavior for a fully successful run. -/
def okScript : RunScript :=
  { planResp := .ok "x", stepResp := fun _ => .ok "out", summaryResp := .ok "done" }

/-- Witness for C7 (amended): on a concrete successful run the task is
appended to history and the current-task reference is cleared. -/
theorem executeTask_exit_state_witness :
    (exW.executeTask "t3" "demo" none (fun _ => none) okScript).state.taskHistory =
      exW.taskHistory ++ [(exW.executeTask "t3" "demo" none (fun _ => none) okScript).task] ∧
    (exW.executeTask "t3" "demo" none (fun _ => none) okScript).state.currentTask = none ∧
    (exW.executeTask "t3" "demo" none (fun _ => none) okScript).task.status = .completed := by
  have h := executeTask_exit_state exW "t3" "demo" none (fun _ => none) okScript _ rfl
  have hs : (exW.executeTask "t3" "demo" none (fun _ => none) okScript).task.status =
      .completed := rfl
  have h2 := h.2.1 hs
  exact ⟨h2.1, h2.2.1, hs⟩

end OpenCowork

namespace OpenCowork

/-- Witness for C8 (amended) on the concrete reply
`x` + opening brace + `a` + closing brace + `y`. -/
theorem plan_extraction_greedy_witness :
    extractJson (String.mk (['x'] ++ [Char.ofNat 123, 'a', Char.ofNat 125] ++ ['y'])) =
      some (String.mk [Char.ofNat 123, 'a', Char.ofNat 125]) ∧
    createExecutionPlan (fun _ => none) "d"
        (String.mk (['x'] ++ [Char.ofNat 123, 'a', Char.ofNat 125] ++ ['y'])) =
      createFallbackPlan "d" := by
  have h := plan_extraction_greedy (fun _ => none) "d"
    ['x'] [Char.ofNat 123, 'a', Char.ofNat 125] ['y']
    (by decide) (by decide) (by decide) (by decide)
  exact ⟨h.1, h.2.trans rfl⟩

end OpenCowork
